import Mathlib

/-!
Verification of the payment-to-vote reconciliation core of a paid-voting
platform (events / contestants / paid votes over two payment providers).

The definitions below are a shallow embedding of the JavaScript sources and
of the SQL schema:
* currency conversion helpers (`config/stripe.js`),
* the commission split computed in the payment-intent creation routes,
* the relational state (tables of `database/schema.sql`) together with the
  uniqueness constraints and the `update_vote_counts` trigger,
* the webhook handlers for both providers, the verify/cancel routes, the
  vote-creation endpoint, and the organizer withdrawal route.

Money amounts are modelled as rationals (`ℚ`), timestamps as integers,
row identifiers as naturals, and statuses as the literal strings that the
code writes.  Fallible storage operations return `Except String`.
-/

namespace FullProject

/-! ### Currency minor-unit conversion, from `config/stripe.js` -/

/-- Zero-decimal currency list used by `toMinorCurrencyUnit` and
`fromMinorCurrencyUnit` in `config/stripe.js`. -/
def zeroDecimalCurrencies : List String := ["jpy", "krw", "clp", "vnd"]

/-- Semantics of JavaScript `Math.round` on exact (rational) inputs:
round half toward positive infinity. -/
def jsRound (q : ℚ) : ℤ := ⌊q + 1 / 2⌋

/-- Semantics of JavaScript `toLowerCase` on the ASCII currency codes the
routes accept: lowercase every character. -/
def jsToLower (s : String) : String := String.mk (s.data.map Char.toLower)

/-- Test used by both conversion directions: the currency code, lowercased,
is a member of the zero-decimal list. -/
def isZeroDecimal (currency : String) : Bool :=
  zeroDecimalCurrencies.contains (jsToLower currency)

/-- Value that `toMinorCurrencyUnit` rounds: the amount itself for a
zero-decimal currency, otherwise the amount scaled by 100. -/
def scaledValue (amount : ℚ) (currency : String) : ℚ :=
  if isZeroDecimal currency then amount else amount * 100

/-- Embedding of `toMinorCurrencyUnit` from `config/stripe.js`. -/
def toMinorCurrencyUnit (amount : ℚ) (currency : String) : ℤ :=
  if isZeroDecimal currency then jsRound amount else jsRound (amount * 100)

/-- Embedding of `fromMinorCurrencyUnit` from `config/stripe.js`. -/
def fromMinorCurrencyUnit (amount : ℤ) (currency : String) : ℚ :=
  if isZeroDecimal currency then (amount : ℚ) else (amount : ℚ) / 100

/-- Modelled from the spec: round half away from zero, the rounding mode the
specification names for the scaled value. -/
def roundHalfAwayFromZero (q : ℚ) : ℤ :=
  if 0 ≤ q then ⌊q + 1 / 2⌋ else -⌊-q + 1 / 2⌋

/-- An amount is representable at a currency's minor-unit precision:
integral for a zero-decimal currency, at most two decimal places otherwise. -/
def RepresentableAt (amount : ℚ) (currency : String) : Prop :=
  if isZeroDecimal currency then amount.den = 1 else (amount * 100).den = 1

instance (amount : ℚ) (currency : String) : Decidable (RepresentableAt amount currency) := by
  unfold RepresentableAt
  infer_instance

/-! ### Commission split, from the create-intent routes (`routes/payments.js`) -/

/-- Embedding of the fee computation in both `POST /stripe/create-intent` and
`POST /paystack/initialize`: `platformFee = amount * commission_rate` and
`organizerEarnings = amount - platformFee`.  The code performs no rounding. -/
def commissionSplit (amount rate : ℚ) : ℚ × ℚ :=
  (amount * rate, amount - amount * rate)

/-- Modelled from the spec: rounding a value to two decimal places, half away
from zero, as `round2` in the specification. -/
def round2 (q : ℚ) : ℚ := (roundHalfAwayFromZero (q * 100) : ℚ) / 100

/-! ### Relational state, from `database/schema.sql` -/

/-- Row of the `events` table (the fields the payment core reads). -/
structure EventRow where
  id : Nat
  organizerId : Nat
  status : String
  votePrice : ℚ
  startDate : ℤ
  endDate : ℤ
  totalVotes : Nat
  totalRevenue : ℚ
deriving Repr, DecidableEq

/-- Row of the `categories` table. -/
structure CategoryRow where
  id : Nat
  eventId : Nat
deriving Repr, DecidableEq

/-- Row of the `contestants` table. -/
structure ContestantRow where
  id : Nat
  categoryId : Nat
  voteCount : Nat
deriving Repr, DecidableEq

/-- Row of the `payments` table. -/
structure PaymentRow where
  id : Nat
  voterId : Nat
  eventId : Nat
  contestantId : Nat
  amount : ℚ
  platformFee : ℚ
  organizerEarnings : ℚ
  paymentMethod : String
  paymentProviderId : Option Nat
  paymentIntentId : Option Nat
  status : String
deriving Repr, DecidableEq

/-- Row of the `votes` table. -/
structure VoteRow where
  voterId : Nat
  contestantId : Nat
  eventId : Nat
  paymentId : Nat
  amount : ℚ
deriving Repr, DecidableEq

/-- Row of the `withdrawals` table. -/
structure WithdrawalRow where
  id : Nat
  organizerId : Nat
  amount : ℚ
  status : String
deriving Repr, DecidableEq

/-- Singleton `platform_settings` row. -/
structure SettingsRow where
  commissionRate : ℚ
deriving Repr, DecidableEq

/-- The durable state: all tables the payment core touches. -/
structure DB where
  events : List EventRow
  categories : List CategoryRow
  contestants : List ContestantRow
  payments : List PaymentRow
  votes : List VoteRow
  withdrawals : List WithdrawalRow
  settings : SettingsRow
deriving Repr, DecidableEq

/-- Values of the `payment_status` enum declared in `database/schema.sql`:
`CREATE TYPE payment_status AS ENUM ('pending','completed','failed','refunded')`. -/
def paymentStatusEnum : List String := ["pending", "completed", "failed", "refunded"]

/-- An SQL `UPDATE ... WHERE`: apply `f` to every row satisfying `p`. -/
def updateWhere (p : α → Bool) (f : α → α) (l : List α) : List α :=
  l.map fun a => if p a then f a else a

/-- The `update_vote_counts` trigger of `database/schema.sql`: after a vote
insert, increment the contestant's `vote_count` and the event's
`total_votes`/`total_revenue`. -/
def runVoteCountsTrigger (db : DB) (v : VoteRow) : DB :=
  { db with
    contestants := updateWhere (fun c => c.id == v.contestantId)
      (fun c => { c with voteCount := c.voteCount + 1 }) db.contestants,
    events := updateWhere (fun e => e.id == v.eventId)
      (fun e => { e with totalVotes := e.totalVotes + 1,
                         totalRevenue := e.totalRevenue + v.amount }) db.events }

/-- Insert into `votes`: the storage layer enforces
`payment_id UUID UNIQUE`, rejecting any second vote for the same payment,
and fires `update_vote_counts` on success. -/
def insertVote (db : DB) (v : VoteRow) : Except String DB :=
  if db.votes.any (fun w => w.paymentId == v.paymentId) then
    Except.error "duplicate key value violates unique constraint on votes.payment_id"
  else
    Except.ok (runVoteCountsTrigger { db with votes := db.votes ++ [v] } v)

/-- Insert into `payments` (primary-key uniqueness on `id`). -/
def insertPayment (db : DB) (p : PaymentRow) : Except String DB :=
  if db.payments.any (fun q => q.id == p.id) then
    Except.error "duplicate key value violates payments primary key"
  else
    Except.ok { db with payments := db.payments ++ [p] }

/-- Insert into `withdrawals` (primary-key uniqueness on `id`). -/
def insertWithdrawal (db : DB) (w : WithdrawalRow) : Except String DB :=
  if db.withdrawals.any (fun x => x.id == w.id) then
    Except.error "duplicate key value violates withdrawals primary key"
  else
    Except.ok { db with withdrawals := db.withdrawals ++ [w] }

/-- An `UPDATE payments SET status = s, ... WHERE p`: the storage layer
rejects the whole statement when `s` is not a `payment_status` enum value;
`extra` carries the other column assignments of the same statement. -/
def updatePaymentStatusWhere (db : DB) (p : PaymentRow → Bool) (s : String)
    (extra : PaymentRow → PaymentRow) : Except String DB :=
  if paymentStatusEnum.contains s then
    Except.ok { db with
      payments := updateWhere p (fun q => extra { q with status := s }) db.payments }
  else
    Except.error "invalid input value for enum payment_status"

/-! ### Webhook handlers, from the Stripe and Paystack webhook routes -/

/-- Stripe `payment_intent.succeeded` handler (`handlePaymentSucceeded`):
looks the payment up by `payment_intent_id`, unconditionally updates its
status to `completed` (no fetch-then-compare on the current status), then
inserts the vote; a failed vote insert is logged and swallowed. -/
def handlePaymentSucceeded (db : DB) (metadataPaymentId : Option Nat)
    (intentId : Nat) : DB :=
  match metadataPaymentId with
  | none => db
  | some _ =>
    match db.payments.find? (fun p => p.paymentIntentId == some intentId) with
    | none => db
    | some payment =>
      match updatePaymentStatusWhere db (fun p => p.id == payment.id) "completed"
          (fun p => { p with paymentProviderId := some intentId }) with
      | Except.error _ => db
      | Except.ok db1 =>
        match insertVote db1
            { voterId := payment.voterId, contestantId := payment.contestantId,
              eventId := payment.eventId, paymentId := payment.id,
              amount := payment.amount } with
        | Except.error _ => db1
        | Except.ok db2 => db2

/-- Stripe `payment_intent.payment_failed` handler (`handlePaymentFailed`):
unconditionally sets the status of the payment matching the intent id to
`failed`. -/
def handlePaymentFailed (db : DB) (metadataPaymentId : Option Nat)
    (intentId : Nat) : DB :=
  match metadataPaymentId with
  | none => db
  | some _ =>
    match updatePaymentStatusWhere db (fun p => p.paymentIntentId == some intentId)
        "failed" (fun p => { p with paymentProviderId := some intentId }) with
    | Except.error _ => db
    | Except.ok db1 => db1

/-- Stripe `payment_intent.canceled` handler (`handlePaymentCanceled`):
same write as the failed handler, status `failed`. -/
def handlePaymentCanceled (db : DB) (metadataPaymentId : Option Nat)
    (intentId : Nat) : DB :=
  match metadataPaymentId with
  | none => db
  | some _ =>
    match updatePaymentStatusWhere db (fun p => p.paymentIntentId == some intentId)
        "failed" (fun p => { p with paymentProviderId := some intentId }) with
    | Except.error _ => db
    | Except.ok db1 => db1

/-- Stripe `charge.dispute.created` handler (`handleChargeDispute`): looks
the payment up by `payment_intent_id` and issues
`UPDATE payments SET status = 'disputed'`; the update error, if any, is only
logged. -/
def handleChargeDispute (db : DB) (intentId : Option Nat) : DB :=
  match intentId with
  | none => db
  | some iid =>
    match db.payments.find? (fun p => p.paymentIntentId == some iid) with
    | none => db
    | some payment =>
      match updatePaymentStatusWhere db (fun p => p.id == payment.id) "disputed"
          (fun p => p) with
      | Except.error _ => db
      | Except.ok db1 => db1

/-- Paystack `charge.success` handler (`handleChargeSuccess`): verifies the
transaction with the provider (outcome `verified`), looks the payment up by
`id = reference`, unconditionally updates its status to `completed`, then
inserts the vote; a failed vote insert is logged and swallowed. -/
def handleChargeSuccess (db : DB) (reference : Option Nat) (verified : Bool)
    (chargeId : Nat) : DB :=
  match reference with
  | none => db
  | some ref =>
    if !verified then db
    else
      match db.payments.find? (fun p => p.id == ref) with
      | none => db
      | some payment =>
        match updatePaymentStatusWhere db (fun p => p.id == payment.id) "completed"
            (fun p => { p with paymentProviderId := some chargeId }) with
        | Except.error _ => db
        | Except.ok db1 =>
          match insertVote db1
              { voterId := payment.voterId, contestantId := payment.contestantId,
                eventId := payment.eventId, paymentId := payment.id,
                amount := payment.amount } with
          | Except.error _ => db1
          | Except.ok db2 => db2

/-- Paystack `charge.failed` handler (`handleChargeFailed`): unconditionally
sets the status of the payment with `id = reference` to `failed`. -/
def handleChargeFailed (db : DB) (reference : Option Nat) (chargeId : Nat) : DB :=
  match reference with
  | none => db
  | some ref =>
    match updatePaymentStatusWhere db (fun p => p.id == ref) "failed"
        (fun p => { p with paymentProviderId := some chargeId }) with
    | Except.error _ => db
    | Except.ok db1 => db1

/-- Paystack `transfer.success` handler: marks the withdrawal whose id is the
transfer reference `completed`. -/
def handleTransferSuccess (db : DB) (reference : Option Nat) : DB :=
  match reference with
  | none => db
  | some ref =>
    let rows := updateWhere (fun w => w.id == ref)
      (fun w => { w with status := "completed" }) db.withdrawals
    { db with withdrawals := rows }

/-- Paystack `transfer.failed` handler: marks the withdrawal whose id is the
transfer reference `failed`. -/
def handleTransferFailed (db : DB) (reference : Option Nat) : DB :=
  match reference with
  | none => db
  | some ref =>
    let rows := updateWhere (fun w => w.id == ref)
      (fun w => { w with status := "failed" }) db.withdrawals
    { db with withdrawals := rows }

/-! ### Webhook routes -/

/-- Events dispatched by the Stripe webhook route. -/
inductive StripeEvent
  | paymentSucceeded (metadataPaymentId : Option Nat) (intentId : Nat)
  | paymentFailed (metadataPaymentId : Option Nat) (intentId : Nat)
  | paymentCanceled (metadataPaymentId : Option Nat) (intentId : Nat)
  | chargeDisputeCreated (intentId : Option Nat)
  | unknownEvent (eventType : String)
deriving Repr, DecidableEq

/-- Events dispatched by the Paystack webhook route.  `verified` is the
outcome of the in-handler provider verification call of `charge.success`. -/
inductive PaystackEvent
  | chargeSuccess (reference : Option Nat) (verified : Bool) (chargeId : Nat)
  | chargeFailed (reference : Option Nat) (chargeId : Nat)
  | transferSuccess (reference : Option Nat)
  | transferFailed (reference : Option Nat)
  | unknownEvent (eventType : String)
deriving Repr, DecidableEq

/-- Result of a webhook route: the new state and the HTTP status returned to
the provider. -/
structure WebhookResult where
  db : DB
  httpStatus : Nat
deriving Repr, DecidableEq

/-- The Stripe webhook route: 400 when the signature header or secret is
missing or the signature does not verify (no state change); otherwise
dispatch by event type (handlers swallow their own errors) and acknowledge
with 200, also for unknown event types. -/
def stripeWebhookRoute (db : DB) (hasSignature hasSecret signatureValid : Bool)
    (event : StripeEvent) : WebhookResult :=
  if !hasSignature || !hasSecret then ⟨db, 400⟩
  else if !signatureValid then ⟨db, 400⟩
  else
    let db1 :=
      match event with
      | StripeEvent.paymentSucceeded m i => handlePaymentSucceeded db m i
      | StripeEvent.paymentFailed m i => handlePaymentFailed db m i
      | StripeEvent.paymentCanceled m i => handlePaymentCanceled db m i
      | StripeEvent.chargeDisputeCreated i => handleChargeDispute db i
      | StripeEvent.unknownEvent _ => db
    ⟨db1, 200⟩

/-- The Paystack webhook route: 400 when the signature header or secret is
missing or the HMAC digest does not match (no state change); otherwise
dispatch by event type and acknowledge with 200, also for unknown event
types. -/
def paystackWebhookRoute (db : DB) (hasSignature hasSecret hashMatches : Bool)
    (event : PaystackEvent) : WebhookResult :=
  if !hasSignature || !hasSecret then ⟨db, 400⟩
  else if !hashMatches then ⟨db, 400⟩
  else
    let db1 :=
      match event with
      | PaystackEvent.chargeSuccess r v c => handleChargeSuccess db r v c
      | PaystackEvent.chargeFailed r c => handleChargeFailed db r c
      | PaystackEvent.transferSuccess r => handleTransferSuccess db r
      | PaystackEvent.transferFailed r => handleTransferFailed db r
      | PaystackEvent.unknownEvent _ => db
    ⟨db1, 200⟩

/-! ### Verify and cancel routes, from `routes/payments.js` -/

/-- Mapping of raw provider statuses to the local payment status written by
`GET /verify/:paymentId`: Stripe `succeeded` → `completed`,
`canceled`/`payment_failed` → `failed`; Paystack `success` → `completed`,
`failed`/`abandoned` → `failed`; anything else leaves verification
inconclusive. -/
def mapProviderStatus (method raw : String) : Option String :=
  if method == "stripe" then
    if raw == "succeeded" then some "completed"
    else if raw == "canceled" || raw == "payment_failed" then some "failed"
    else none
  else
    if raw == "success" then some "completed"
    else if raw == "failed" || raw == "abandoned" then some "failed"
    else none

/-- The `GET /verify/:paymentId` route: re-checks provider status only while
the local status is still `pending` (fetch-then-compare), and writes the
mapped status when it differs.  `providerRawStatus` is the status string the
provider returned, `none` when the provider call failed. -/
def verifyPaymentRoute (db : DB) (paymentId voterId : Nat)
    (providerRawStatus : Option String) : DB :=
  match db.payments.find? (fun p => p.id == paymentId && p.voterId == voterId) with
  | none => db
  | some payment =>
    if payment.status == "pending" then
      let hasProviderRef :=
        if payment.paymentMethod == "stripe" then payment.paymentIntentId.isSome
        else payment.paymentProviderId.isSome
      if !hasProviderRef then db
      else
        match providerRawStatus with
        | none => db
        | some raw =>
          match mapProviderStatus payment.paymentMethod raw with
          | none => db
          | some s =>
            if s != payment.status then
              match updatePaymentStatusWhere db (fun p => p.id == paymentId) s
                  (fun p => p) with
              | Except.error _ => db
              | Except.ok db1 => db1
            else db
    else db

/-- The `POST /cancel/:paymentId` route: only a still-`pending` payment of
the requesting voter is cancelled (fetch filters on `status = 'pending'`);
a provider-side cancel failure does not block the local transition to
`failed`. -/
def cancelPaymentRoute (db : DB) (paymentId voterId : Nat) : DB :=
  match db.payments.find?
      (fun p => p.id == paymentId && p.voterId == voterId && p.status == "pending") with
  | none => db
  | some _ =>
    match updatePaymentStatusWhere db (fun p => p.id == paymentId) "failed"
        (fun p => p) with
    | Except.error _ => db
    | Except.ok db1 => db1

/-! ### Vote-creation endpoint, from `routes/votes.js` -/

/-- Response of `POST /votes`. -/
inductive VoteResponse
  | created (v : VoteRow)
  | badRequest (msg : String)
  | notFound (msg : String)
deriving Repr, DecidableEq

/-- Resolution of contestant → category → event performed by the joined
select in the vote and create-intent routes. -/
def resolveEventOfContestant (db : DB) (contestantId : Nat) :
    Option (ContestantRow × EventRow) := do
  let c ← db.contestants.find? (fun x => x.id == contestantId)
  let cat ← db.categories.find? (fun x => x.id == c.categoryId)
  let e ← db.events.find? (fun x => x.id == cat.eventId)
  pure (c, e)

/-- The `POST /votes` route: eligibility checks, payment-completed check,
payment/request match check, existing-vote check (which answers 400
`Vote already exists for this payment`), then the insert. -/
def postVote (db : DB) (now : ℤ) (voterId contestantId paymentId : Nat)
    (amount : ℚ) : VoteResponse × DB :=
  match resolveEventOfContestant db contestantId with
  | none => (VoteResponse.notFound "Contestant not found", db)
  | some (_, event) =>
    if event.status ≠ "active" then (VoteResponse.badRequest "Event is not active", db)
    else if now < event.startDate then
      (VoteResponse.badRequest "Voting has not started yet", db)
    else if event.endDate < now then (VoteResponse.badRequest "Voting has ended", db)
    else if amount ≠ event.votePrice then
      (VoteResponse.badRequest "Invalid vote amount", db)
    else
      match db.payments.find? (fun p => p.id == paymentId) with
      | none => (VoteResponse.notFound "Payment not found", db)
      | some payment =>
        if payment.status ≠ "completed" then
          (VoteResponse.badRequest "Payment not completed", db)
        else if payment.contestantId ≠ contestantId ∨ payment.voterId ≠ voterId then
          (VoteResponse.badRequest "Payment mismatch", db)
        else if db.votes.any (fun w => w.paymentId == paymentId) then
          (VoteResponse.badRequest "Vote already exists for this payment", db)
        else
          let v : VoteRow :=
            { voterId := voterId, contestantId := contestantId,
              eventId := event.id, paymentId := paymentId, amount := amount }
          match insertVote db v with
          | Except.error _ => (VoteResponse.badRequest "Failed to create vote", db)
          | Except.ok db1 => (VoteResponse.created v, db1)

/-! ### Payment-intent creation routes, from `routes/payments.js` -/

/-- Response of the two create-intent routes. -/
inductive IntentResponse
  | ok (paymentId : Nat)
  | notFound (msg : String)
  | badRequest (msg : String)
deriving Repr, DecidableEq

/-- The `POST /stripe/create-intent` route body (after express-validator):
eligibility checks with one distinguishable reason string per violated
precondition, commission split from the current settings row, `pending`
payment insert, then the Stripe call; on provider failure the payment is
rolled forward to `failed`. -/
def stripeCreateIntent (db : DB) (now : ℤ) (userId contestantId : Nat)
    (amount : ℚ) (newPaymentId : Nat) (stripeOk : Bool) (stripeIntentId : Nat) :
    IntentResponse × DB :=
  match resolveEventOfContestant db contestantId with
  | none => (IntentResponse.notFound "Contestant not found", db)
  | some (_, event) =>
    if event.status ≠ "active" then
      (IntentResponse.badRequest "Event is not active", db)
    else if now < event.startDate then
      (IntentResponse.badRequest "Voting has not started yet", db)
    else if event.endDate < now then
      (IntentResponse.badRequest "Voting has ended", db)
    else if amount ≠ event.votePrice then
      (IntentResponse.badRequest "Invalid vote amount", db)
    else
      let platformFee := amount * db.settings.commissionRate
      let newP : PaymentRow :=
        { id := newPaymentId, voterId := userId, eventId := event.id,
          contestantId := contestantId, amount := amount,
          platformFee := platformFee, organizerEarnings := amount - platformFee,
          paymentMethod := "stripe", paymentProviderId := none,
          paymentIntentId := none, status := "pending" }
      match insertPayment db newP with
      | Except.error _ => (IntentResponse.badRequest "Failed to create payment record", db)
      | Except.ok db1 =>
        if !stripeOk then
          let rows := updateWhere (fun p => p.id == newPaymentId)
            (fun p => { p with status := "failed" }) db1.payments
          (IntentResponse.badRequest "Failed to create payment intent",
            { db1 with payments := rows })
        else
          let rows := updateWhere (fun p => p.id == newPaymentId)
            (fun p => { p with paymentIntentId := some stripeIntentId }) db1.payments
          (IntentResponse.ok newPaymentId, { db1 with payments := rows })

/-- The `POST /paystack/initialize` route body (after express-validator):
same validation as Stripe except that the two voting-window violations are
collapsed into the single reason `Voting period has ended or not started`;
the payment id itself is used as the Paystack transaction reference. -/
def paystackInitialize (db : DB) (now : ℤ) (userId contestantId : Nat)
    (amount : ℚ) (newPaymentId : Nat) (paystackOk : Bool) :
    IntentResponse × DB :=
  match resolveEventOfContestant db contestantId with
  | none => (IntentResponse.notFound "Contestant not found", db)
  | some (_, event) =>
    if event.status ≠ "active" then
      (IntentResponse.badRequest "Event is not active", db)
    else if now < event.startDate ∨ event.endDate < now then
      (IntentResponse.badRequest "Voting period has ended or not started", db)
    else if amount ≠ event.votePrice then
      (IntentResponse.badRequest "Invalid vote amount", db)
    else
      let platformFee := amount * db.settings.commissionRate
      let newP : PaymentRow :=
        { id := newPaymentId, voterId := userId, eventId := event.id,
          contestantId := contestantId, amount := amount,
          platformFee := platformFee, organizerEarnings := amount - platformFee,
          paymentMethod := "paystack", paymentProviderId := none,
          paymentIntentId := none, status := "pending" }
      match insertPayment db newP with
      | Except.error _ => (IntentResponse.badRequest "Failed to create payment record", db)
      | Except.ok db1 =>
        if !paystackOk then
          let rows := updateWhere (fun p => p.id == newPaymentId)
            (fun p => { p with status := "failed" }) db1.payments
          (IntentResponse.badRequest "Failed to initialize Paystack payment",
            { db1 with payments := rows })
        else
          let rows := updateWhere (fun p => p.id == newPaymentId)
            (fun p => { p with paymentProviderId := some newPaymentId }) db1.payments
          (IntentResponse.ok newPaymentId, { db1 with payments := rows })

/-! ### Organizer withdrawals, from `routes/organizer.js` -/

/-- Sum of `total_revenue` over the organizer's events, as in the
withdrawal route. -/
def organizerTotalRevenue (db : DB) (organizerId : Nat) : ℚ :=
  ((db.events.filter (fun e => e.organizerId == organizerId)).map
    (fun e => e.totalRevenue)).sum

/-- Sum of withdrawal amounts in status completed, pending or processing,
as in the withdrawal route. -/
def withdrawnOrPending (db : DB) (organizerId : Nat) : ℚ :=
  ((db.withdrawals.filter (fun w => w.organizerId == organizerId &&
      ["completed", "pending", "processing"].contains w.status)).map
    (fun w => w.amount)).sum

/-- Withdrawable balance as computed by `POST /organizer/withdrawals`:
`totalRevenue * (1 - commission_rate) - totalWithdrawnOrPending`, where
`commission_rate` is read from the current `platform_settings` row at
request time. -/
def withdrawableBalance (db : DB) (organizerId : Nat) : ℚ :=
  organizerTotalRevenue db organizerId * (1 - db.settings.commissionRate) -
    withdrawnOrPending db organizerId

/-- Sum of the `organizer_earnings` column over completed payments of the
organizer's events, as in the organizer earnings endpoint (the values frozen
into the payment rows at creation time). -/
def organizerStoredEarnings (db : DB) (organizerId : Nat) : ℚ :=
  ((db.payments.filter (fun p => p.status == "completed" &&
      (db.events.any (fun e => e.id == p.eventId && e.organizerId == organizerId)))).map
    (fun p => p.organizerEarnings)).sum

/-- The admin settings writer: replaces the singleton commission rate. -/
def setCommissionRate (db : DB) (rate : ℚ) : DB :=
  { db with settings := { commissionRate := rate } }

/-- Response of `POST /organizer/withdrawals`. -/
inductive WithdrawResponse
  | created (id : Nat)
  | insufficientBalance (available requested : ℚ)
  | invalidDetails (msg : String)
  | dbError (msg : String)
deriving Repr, DecidableEq

/-- Presence flags for the `payment_details` object of a withdrawal
request. -/
structure PaymentDetails where
  hasAccountNumber : Bool
  hasBankName : Bool
  hasAccountName : Bool
  hasMobileNumber : Bool
  hasNetwork : Bool
deriving Repr, DecidableEq

/-- The `POST /organizer/withdrawals` route body (after express-validator):
balance check first (rejecting with the available balance in the response
and creating no row), then method-specific detail validation, then the
insert of a `pending` withdrawal row. -/
def postWithdrawal (db : DB) (organizerId : Nat) (amount : ℚ) (method : String)
    (details : PaymentDetails) (newId : Nat) : WithdrawResponse × DB :=
  let available := withdrawableBalance db organizerId
  if available < amount then
    (WithdrawResponse.insufficientBalance available amount, db)
  else if method == "bank_transfer" &&
      !(details.hasAccountNumber && details.hasBankName && details.hasAccountName) then
    (WithdrawResponse.invalidDetails
      "Bank transfer requires account_number, bank_name, and account_name", db)
  else if method == "mobile_money" &&
      !(details.hasMobileNumber && details.hasNetwork) then
    (WithdrawResponse.invalidDetails "Mobile money requires mobile_number and network", db)
  else
    match insertWithdrawal db
        { id := newId, organizerId := organizerId, amount := amount,
          status := "pending" } with
    | Except.error m => (WithdrawResponse.dbError m, db)
    | Except.ok db1 => (WithdrawResponse.created newId, db1)

/-! ### Operation alphabets for the temporal claims -/

/-- Any operation that writes `Payment.status`: the webhook handlers of both
providers, the verify path and the cancel path. -/
inductive PayOp
  | stripeSucceeded (metadataPaymentId : Option Nat) (intentId : Nat)
  | stripeFailed (metadataPaymentId : Option Nat) (intentId : Nat)
  | stripeCanceled (metadataPaymentId : Option Nat) (intentId : Nat)
  | stripeDispute (intentId : Option Nat)
  | paystackSuccess (reference : Option Nat) (verified : Bool) (chargeId : Nat)
  | paystackFailed (reference : Option Nat) (chargeId : Nat)
  | verifyOp (paymentId voterId : Nat) (providerRawStatus : Option String)
  | cancelOp (paymentId voterId : Nat)
deriving Repr, DecidableEq

/-- Interpretation of one status-writing operation. -/
def applyPayOp (db : DB) (op : PayOp) : DB :=
  match op with
  | PayOp.stripeSucceeded m i => handlePaymentSucceeded db m i
  | PayOp.stripeFailed m i => handlePaymentFailed db m i
  | PayOp.stripeCanceled m i => handlePaymentCanceled db m i
  | PayOp.stripeDispute i => handleChargeDispute db i
  | PayOp.paystackSuccess r v c => handleChargeSuccess db r v c
  | PayOp.paystackFailed r c => handleChargeFailed db r c
  | PayOp.verifyOp pid vid s => verifyPaymentRoute db pid vid s
  | PayOp.cancelOp pid vid => cancelPaymentRoute db pid vid

/-- Interpretation of a sequence of status-writing operations, applied in
order. -/
def applyPayOps (db : DB) (ops : List PayOp) : DB :=
  ops.foldl applyPayOp db

/-- Status of the payment with the given id, if any. -/
def paymentStatusOf (db : DB) (pid : Nat) : Option String :=
  (db.payments.find? (fun p => p.id == pid)).map (fun p => p.status)

/-- One vote-commit attempt for a given payment: either provider's
payment-succeeded webhook, or the client-initiated `POST /votes` call. -/
inductive CommitOp
  | stripeWebhook (metadataPaymentId : Option Nat) (intentId : Nat)
  | paystackWebhook (reference : Option Nat) (verified : Bool) (chargeId : Nat)
  | votesEndpoint (now : ℤ) (voterId contestantId paymentId : Nat) (amount : ℚ)
deriving Repr, DecidableEq

/-- Interpretation of one commit attempt. -/
def applyCommitOp (db : DB) (op : CommitOp) : DB :=
  match op with
  | CommitOp.stripeWebhook m i => handlePaymentSucceeded db m i
  | CommitOp.paystackWebhook r v c => handleChargeSuccess db r v c
  | CommitOp.votesEndpoint now vid cid pid amt => (postVote db now vid cid pid amt).2

/-- Interpretation of a sequence of commit attempts, applied in order. -/
def applyCommitOps (db : DB) (ops : List CommitOp) : DB :=
  ops.foldl applyCommitOp db

/-- Votes referencing the given payment. -/
def votesForPayment (db : DB) (pid : Nat) : List VoteRow :=
  db.votes.filter (fun v => v.paymentId == pid)

/-- Denormalized `vote_count` of the contestant with the given id. -/
def contestantVoteCountOf (db : DB) (cid : Nat) : Option Nat :=
  (db.contestants.find? (fun c => c.id == cid)).map (fun c => c.voteCount)

/-- `total_votes` of the event with the given id. -/
def eventTotalVotesOf (db : DB) (eid : Nat) : Option Nat :=
  (db.events.find? (fun e => e.id == eid)).map (fun e => e.totalVotes)

/-- `total_revenue` of the event with the given id. -/
def eventTotalRevenueOf (db : DB) (eid : Nat) : Option ℚ :=
  (db.events.find? (fun e => e.id == eid)).map (fun e => e.totalRevenue)

/-! ### Commit-scenario description for the exactly-once property -/

/-- Parameters of a commit scenario: the key fields of the target completed
payment, its Stripe intent id, its category linkage, the voting window, and
the initial counter values. -/
structure CommitCtx where
  pid : Nat
  vid : Nat
  cid : Nat
  eid : Nat
  amt : ℚ
  iid : Nat
  catId : Nat
  startD : ℤ
  endD : ℤ
  c0 : Nat
  tv0 : Nat
  tr0 : ℚ

/-- Key fields of the target payment row; every commit operation preserves
them and keeps the status `completed`. -/
def KeyFields (ctx : CommitCtx) (p : PaymentRow) : Prop :=
  p.id = ctx.pid ∧ p.voterId = ctx.vid ∧ p.contestantId = ctx.cid ∧
  p.eventId = ctx.eid ∧ p.amount = ctx.amt ∧ p.status = "completed"

/-- Invariant of the commit protocol: the payment is found both by id and by
intent id with its key fields intact; contestant, category and event resolve
with their static fields intact; the vote table and the three counters
reflect whether the single commit has already happened (`voted`). -/
def CommitInv (ctx : CommitCtx) (voted : Bool) (db : DB) : Prop :=
  (∃ p, db.payments.find? (fun q => q.id == ctx.pid) = some p ∧ KeyFields ctx p) ∧
  (∃ p, db.payments.find? (fun q => q.paymentIntentId == some ctx.iid) = some p ∧
    KeyFields ctx p) ∧
  (∃ c, db.contestants.find? (fun x => x.id == ctx.cid) = some c ∧
    c.categoryId = ctx.catId ∧ c.voteCount = ctx.c0 + (if voted then 1 else 0)) ∧
  db.categories.find? (fun x => x.id == ctx.catId) =
    some { id := ctx.catId, eventId := ctx.eid } ∧
  (∃ e, db.events.find? (fun x => x.id == ctx.eid) = some e ∧
    e.status = "active" ∧ e.startDate = ctx.startD ∧ e.endDate = ctx.endD ∧
    e.votePrice = ctx.amt ∧ e.totalVotes = ctx.tv0 + (if voted then 1 else 0) ∧
    e.totalRevenue = ctx.tr0 + (if voted then ctx.amt else 0)) ∧
  (votesForPayment db ctx.pid).length = (if voted then 1 else 0)

/-- A commit operation addressed to the scenario's payment with well-formed
request data; for the endpoint call this includes a request time inside the
voting window. -/
def TargetsCtx (ctx : CommitCtx) : CommitOp → Prop
  | CommitOp.stripeWebhook m i => m.isSome = true ∧ i = ctx.iid
  | CommitOp.paystackWebhook r v _ => r = some ctx.pid ∧ v = true
  | CommitOp.votesEndpoint now voterId contestantId paymentId amount =>
      voterId = ctx.vid ∧ contestantId = ctx.cid ∧ paymentId = ctx.pid ∧
      amount = ctx.amt ∧ ¬ now < ctx.startD ∧ ¬ ctx.endD < now

/-! ### Concrete states used to exercise the theorems on explicit inputs -/

/-- One active event (voting window `[0,100]`, vote price 5, commission rate
1/20), one completed Stripe payment (id 1, intent id 7) already backed by a
vote, counters already incremented once. -/
def sampleDb : DB :=
  { events := [{ id := 1, organizerId := 1, status := "active", votePrice := 5,
                 startDate := 0, endDate := 100, totalVotes := 1, totalRevenue := 5 }],
    categories := [{ id := 1, eventId := 1 }],
    contestants := [{ id := 1, categoryId := 1, voteCount := 1 }],
    payments := [{ id := 1, voterId := 2, eventId := 1, contestantId := 1, amount := 5,
                   platformFee := (commissionSplit 5 (1 / 20)).1,
                   organizerEarnings := (commissionSplit 5 (1 / 20)).2,
                   paymentMethod := "stripe", paymentProviderId := some 7,
                   paymentIntentId := some 7, status := "completed" }],
    votes := [{ voterId := 2, contestantId := 1, eventId := 1, paymentId := 1,
                amount := 5 }],
    withdrawals := [],
    settings := { commissionRate := 1 / 20 } }

/-- Like `sampleDb`, but before any commit: the payment is completed and no
vote references it yet, counters still zero. -/
def freshCommitDb : DB :=
  { events := [{ id := 1, organizerId := 1, status := "active", votePrice := 5,
                 startDate := 0, endDate := 100, totalVotes := 0, totalRevenue := 0 }],
    categories := [{ id := 1, eventId := 1 }],
    contestants := [{ id := 1, categoryId := 1, voteCount := 0 }],
    payments := [{ id := 1, voterId := 2, eventId := 1, contestantId := 1, amount := 5,
                   platformFee := (commissionSplit 5 (1 / 20)).1,
                   organizerEarnings := (commissionSplit 5 (1 / 20)).2,
                   paymentMethod := "stripe", paymentProviderId := some 7,
                   paymentIntentId := some 7, status := "completed" }],
    votes := [],
    withdrawals := [],
    settings := { commissionRate := 1 / 20 } }

/-- Like `freshCommitDb`, but the payment is already failed. -/
def failedDb : DB :=
  { events := [{ id := 1, organizerId := 1, status := "active", votePrice := 5,
                 startDate := 0, endDate := 100, totalVotes := 0, totalRevenue := 0 }],
    categories := [{ id := 1, eventId := 1 }],
    contestants := [{ id := 1, categoryId := 1, voteCount := 0 }],
    payments := [{ id := 1, voterId := 2, eventId := 1, contestantId := 1, amount := 5,
                   platformFee := (commissionSplit 5 (1 / 20)).1,
                   organizerEarnings := (commissionSplit 5 (1 / 20)).2,
                   paymentMethod := "stripe", paymentProviderId := some 7,
                   paymentIntentId := some 7, status := "failed" }],
    votes := [],
    withdrawals := [],
    settings := { commissionRate := 1 / 20 } }

/-- Like `freshCommitDb`, but the payment is still pending. -/
def pendingDb : DB :=
  { events := [{ id := 1, organizerId := 1, status := "active", votePrice := 5,
                 startDate := 0, endDate := 100, totalVotes := 0, totalRevenue := 0 }],
    categories := [{ id := 1, eventId := 1 }],
    contestants := [{ id := 1, categoryId := 1, voteCount := 0 }],
    payments := [{ id := 1, voterId := 2, eventId := 1, contestantId := 1, amount := 5,
                   platformFee := (commissionSplit 5 (1 / 20)).1,
                   organizerEarnings := (commissionSplit 5 (1 / 20)).2,
                   paymentMethod := "stripe", paymentProviderId := some 7,
                   paymentIntentId := some 7, status := "pending" }],
    votes := [],
    withdrawals := [],
    settings := { commissionRate := 1 / 20 } }

/-! ### Helper lemmas -/

theorem jsRound_intCast (k : ℤ) : jsRound (k : ℚ) = k := by
  unfold jsRound
  rw [Int.floor_int_add]
  have h0 : ⌊(1 : ℚ) / 2⌋ = 0 := by
    rw [Int.floor_eq_iff] <;> norm_num
  omega

theorem roundHalfAwayFromZero_intCast (k : ℤ) : roundHalfAwayFromZero (k : ℚ) = k := by
  unfold roundHalfAwayFromZero
  have h0 : ⌊(1 : ℚ) / 2⌋ = 0 := by
    rw [Int.floor_eq_iff] <;> norm_num
  split_ifs with h
  · rw [Int.floor_int_add]
    omega
  · rw [show (-(k : ℚ) + 1 / 2) = ((-k : ℤ) : ℚ) + 1 / 2 by push_cast; ring,
      Int.floor_int_add]
    omega

theorem find?_updateWhere (l : List α) (c : α → Bool) (f : α → α) (q : α → Bool)
    (hq : ∀ a, q (f a) = q a) :
    (updateWhere c f l).find? q = (l.find? q).map (fun a => if c a then f a else a) := by
  induction l with
  | nil => rfl
  | cons a t ih =>
    have hqa : q (if c a then f a else a) = q a := by
      cases hca : c a <;> simp [hca, hq]
    cases hqav : q a with
    | true =>
      rw [updateWhere, List.map_cons]
      rw [List.find?_cons_of_pos _ (by rw [hqa, hqav]),
        List.find?_cons_of_pos _ hqav]
      rfl
    | false =>
      rw [updateWhere, List.map_cons]
      rw [List.find?_cons_of_neg _ (by rw [hqa, hqav]; simp),
        List.find?_cons_of_neg _ (by rw [hqav]; simp)]
      exact ih

theorem votes_any_of_none (db : DB) (pid : Nat)
    (h : (votesForPayment db pid).length = 0) :
    db.votes.any (fun w => w.paymentId == pid) = false := by
  unfold votesForPayment at h
  rw [List.length_eq_zero] at h
  rw [List.any_eq_false]
  intro x hx
  exact List.filter_eq_nil_iff.mp h x hx

theorem votes_any_of_one (db : DB) (pid : Nat)
    (h : (votesForPayment db pid).length = 1) :
    db.votes.any (fun w => w.paymentId == pid) = true := by
  unfold votesForPayment at h
  rw [List.any_eq_true]
  obtain ⟨v, hv⟩ := List.length_eq_one.mp h
  have hmem : v ∈ db.votes.filter (fun w => w.paymentId == pid) := by
    rw [hv]; exact List.mem_singleton_self v
  rw [List.mem_filter] at hmem
  exact ⟨v, hmem.1, hmem.2⟩

theorem payments_insertVote (db db1 : DB) (v : VoteRow)
    (h : insertVote db v = Except.ok db1) : db1.payments = db.payments := by
  unfold insertVote at h
  split_ifs at h
  cases h
  rfl

theorem votes_updatePaymentStatusWhere (db db1 : DB) (c : PaymentRow → Bool)
    (s : String) (extra : PaymentRow → PaymentRow)
    (h : updatePaymentStatusWhere db c s extra = Except.ok db1) :
    db1.votes = db.votes ∧ db1.contestants = db.contestants ∧
    db1.events = db.events ∧ db1.categories = db.categories := by
  unfold updatePaymentStatusWhere at h
  split_ifs at h
  cases h
  exact ⟨rfl, rfl, rfl, rfl⟩

theorem paymentStatusOf_congr (db1 db2 : DB) (pid : Nat)
    (h : db1.payments = db2.payments) :
    paymentStatusOf db1 pid = paymentStatusOf db2 pid := by
  unfold paymentStatusOf
  rw [h]

theorem paymentStatusOf_update (db db1 : DB) (c : PaymentRow → Bool) (s : String)
    (extra : PaymentRow → PaymentRow) (pid : Nat)
    (h : updatePaymentStatusWhere db c s extra = Except.ok db1)
    (hid : ∀ p, (extra p).id = p.id)
    (hst : ∀ p, (extra p).status = p.status) :
    paymentStatusOf db1 pid = paymentStatusOf db pid ∨
    paymentStatusOf db1 pid = some s := by
  unfold updatePaymentStatusWhere at h
  split_ifs at h
  cases h
  unfold paymentStatusOf
  rw [show (updateWhere c (fun q => extra { q with status := s })
        db.payments).find? (fun p => p.id == pid) =
      (db.payments.find? (fun p => p.id == pid)).map
        (fun a => if c a then extra { a with status := s } else a) from
    find?_updateWhere _ _ _ _ (fun a => by rw [hid])]
  cases db.payments.find? (fun p => p.id == pid) with
  | none => left; rfl
  | some p =>
    simp only [Option.map_some']
    by_cases hc : c p
    · right
      rw [if_pos hc]
      rw [show (extra { p with status := s }).status = s from hst _]
    · left
      rw [if_neg hc]

theorem mapProviderStatus_cases (method raw s : String)
    (h : mapProviderStatus method raw = some s) :
    s = "completed" ∨ s = "failed" := by
  unfold mapProviderStatus at h
  split_ifs at h <;> simp_all

theorem handleChargeDispute_noop (db : DB) (intentId : Option Nat) :
    handleChargeDispute db intentId = db := by
  unfold handleChargeDispute
  cases intentId with
  | none => rfl
  | some iid =>
    cases hfind : db.payments.find? (fun p => p.paymentIntentId == some iid) with
    | none => simp only [hfind]
    | some payment =>
      simp only [hfind]
      have hc : paymentStatusEnum.contains "disputed" = false := by decide
      unfold updatePaymentStatusWhere
      rw [hc]
      simp

theorem paymentStatusOf_applyPayOp (db : DB) (op : PayOp) (pid : Nat) :
    paymentStatusOf (applyPayOp db op) pid = paymentStatusOf db pid ∨
    paymentStatusOf (applyPayOp db op) pid = some "completed" ∨
    paymentStatusOf (applyPayOp db op) pid = some "failed" := by
  cases op with
  | stripeSucceeded m i =>
    unfold applyPayOp handlePaymentSucceeded
    cases m with
    | none => left; trivial
    | some mp =>
      cases hfind : db.payments.find? (fun p => p.paymentIntentId == some i) with
      | none => simp only [hfind]; left; trivial
      | some payment =>
        simp only [hfind]
        cases hupd : updatePaymentStatusWhere db (fun p => p.id == payment.id)
            "completed" (fun p => { p with paymentProviderId := some i }) with
        | error msg => simp only [hupd]; left; trivial
        | ok db1 =>
          simp only [hupd]
          have hstat := paymentStatusOf_update db db1 _ "completed" _ pid hupd
            (fun p => rfl) (fun p => rfl)
          cases hins : insertVote db1
              { voterId := payment.voterId, contestantId := payment.contestantId,
                eventId := payment.eventId, paymentId := payment.id,
                amount := payment.amount } with
          | error msg =>
            simp only [hins]
            rcases hstat with h | h
            · left; exact h
            · right; left; exact h
          | ok db2 =>
            simp only [hins]
            rw [paymentStatusOf_congr db2 db1 pid (payments_insertVote db1 db2 _ hins)]
            rcases hstat with h | h
            · left; exact h
            · right; left; exact h
  | stripeFailed m i =>
    unfold applyPayOp handlePaymentFailed
    cases m with
    | none => left; trivial
    | some mp =>
      cases hupd : updatePaymentStatusWhere db
          (fun p => p.paymentIntentId == some i) "failed"
          (fun p => { p with paymentProviderId := some i }) with
      | error msg => simp only [hupd]; left; trivial
      | ok db1 =>
        simp only [hupd]
        rcases paymentStatusOf_update db db1 _ "failed" _ pid hupd
            (fun p => rfl) (fun p => rfl) with h | h
        · left; exact h
        · right; right; exact h
  | stripeCanceled m i =>
    unfold applyPayOp handlePaymentCanceled
    cases m with
    | none => left; trivial
    | some mp =>
      cases hupd : updatePaymentStatusWhere db
          (fun p => p.paymentIntentId == some i) "failed"
          (fun p => { p with paymentProviderId := some i }) with
      | error msg => simp only [hupd]; left; trivial
      | ok db1 =>
        simp only [hupd]
        rcases paymentStatusOf_update db db1 _ "failed" _ pid hupd
            (fun p => rfl) (fun p => rfl) with h | h
        · left; exact h
        · right; right; exact h
  | stripeDispute i =>
    have hdi : applyPayOp db (PayOp.stripeDispute i) = db := by
      show handleChargeDispute db i = db
      exact handleChargeDispute_noop db i
    rw [hdi]
    left; trivial
  | paystackSuccess r v c =>
    unfold applyPayOp handleChargeSuccess
    cases r with
    | none => left; trivial
    | some ref =>
      cases v with
      | false => left; trivial
      | true =>
        simp only [Bool.not_true, Bool.false_eq_true, if_false]
        cases hfind : db.payments.find? (fun p => p.id == ref) with
        | none => simp only [hfind]; left; trivial
        | some payment =>
          simp only [hfind]
          cases hupd : updatePaymentStatusWhere db (fun p => p.id == payment.id)
              "completed" (fun p => { p with paymentProviderId := some c }) with
          | error msg => simp only [hupd]; left; trivial
          | ok db1 =>
            simp only [hupd]
            have hstat := paymentStatusOf_update db db1 _ "completed" _ pid hupd
              (fun p => rfl) (fun p => rfl)
            cases hins : insertVote db1
                { voterId := payment.voterId, contestantId := payment.contestantId,
                  eventId := payment.eventId, paymentId := payment.id,
                  amount := payment.amount } with
            | error msg =>
              simp only [hins]
              rcases hstat with h | h
              · left; exact h
              · right; left; exact h
            | ok db2 =>
              simp only [hins]
              rw [paymentStatusOf_congr db2 db1 pid
                (payments_insertVote db1 db2 _ hins)]
              rcases hstat with h | h
              · left; exact h
              · right; left; exact h
  | paystackFailed r c =>
    unfold applyPayOp handleChargeFailed
    cases r with
    | none => left; trivial
    | some ref =>
      cases hupd : updatePaymentStatusWhere db (fun p => p.id == ref) "failed"
          (fun p => { p with paymentProviderId := some c }) with
      | error msg => simp only [hupd]; left; trivial
      | ok db1 =>
        simp only [hupd]
        rcases paymentStatusOf_update db db1 _ "failed" _ pid hupd
            (fun p => rfl) (fun p => rfl) with h | h
        · left; exact h
        · right; right; exact h
  | verifyOp vpid vvid raw =>
    unfold applyPayOp verifyPaymentRoute
    cases hfind : db.payments.find?
        (fun p => p.id == vpid && p.voterId == vvid) with
    | none => simp only [hfind]; left; trivial
    | some payment =>
      simp only [hfind]
      by_cases hpending : (payment.status == "pending") = true
      · rw [if_pos hpending]
        by_cases href : (!(if payment.paymentMethod == "stripe" then
            payment.paymentIntentId.isSome else payment.paymentProviderId.isSome)) = true
        · rw [if_pos href]; left; trivial
        · rw [if_neg href]
          cases raw with
          | none => left; trivial
          | some rawStatus =>
            cases hmap : mapProviderStatus payment.paymentMethod rawStatus with
            | none => simp only [hmap]; left; trivial
            | some s =>
              simp only [hmap]
              by_cases hneq : (s != payment.status) = true
              · rw [if_pos hneq]
                cases hupd : updatePaymentStatusWhere db (fun p => p.id == vpid) s
                    (fun p => p) with
                | error msg => simp only [hupd]; left; trivial
                | ok db1 =>
                  simp only [hupd]
                  rcases paymentStatusOf_update db db1 _ s _ pid hupd
                      (fun p => rfl) (fun p => rfl) with h | h
                  · left; exact h
                  · rcases mapProviderStatus_cases _ _ _ hmap with hs | hs
                    · right; left; rw [h, hs]
                    · right; right; rw [h, hs]
              · rw [if_neg hneq]; left; trivial
      · rw [if_neg hpending]; left; trivial
  | cancelOp cpid cvid =>
    unfold applyPayOp cancelPaymentRoute
    cases hfind : db.payments.find?
        (fun p => p.id == cpid && p.voterId == cvid && p.status == "pending") with
    | none => simp only [hfind]; left; trivial
    | some payment =>
      simp only [hfind]
      cases hupd : updatePaymentStatusWhere db (fun p => p.id == cpid) "failed"
          (fun p => p) with
      | error msg => simp only [hupd]; left; trivial
      | ok db1 =>
        simp only [hupd]
        rcases paymentStatusOf_update db db1 _ "failed" _ pid hupd
            (fun p => rfl) (fun p => rfl) with h | h
        · left; exact h
        · right; right; exact h

theorem paymentStatusOf_applyPayOps_ne_pending (db : DB) (ops : List PayOp)
    (pid : Nat) (h : paymentStatusOf db pid ≠ some "pending") :
    paymentStatusOf (applyPayOps db ops) pid ≠ some "pending" := by
  induction ops generalizing db with
  | nil => exact h
  | cons op rest ih =>
    show paymentStatusOf (applyPayOps (applyPayOp db op) rest) pid ≠ some "pending"
    apply ih
    rcases paymentStatusOf_applyPayOp db op pid with h1 | h1 | h1
    · rw [h1]; exact h
    · rw [h1]; decide
    · rw [h1]; decide

theorem find?_after_update (db db1 : DB) (c : PaymentRow → Bool) (s : String)
    (extra : PaymentRow → PaymentRow)
    (hupd : updatePaymentStatusWhere db c s extra = Except.ok db1)
    (q : PaymentRow → Bool) (hq : ∀ a, q (extra { a with status := s }) = q a) :
    db1.payments.find? q =
      (db.payments.find? q).map
        (fun a => if c a then extra { a with status := s } else a) := by
  unfold updatePaymentStatusWhere at hupd
  split_ifs at hupd
  cases hupd
  exact find?_updateWhere _ _ _ _ hq

theorem insertVote_ok_of_absent (db : DB) (v : VoteRow)
    (h : db.votes.any (fun w => w.paymentId == v.paymentId) = false) :
    insertVote db v =
      Except.ok (runVoteCountsTrigger { db with votes := db.votes ++ [v] } v) := by
  simp [insertVote, h]

theorem insertVote_conflict (db : DB) (v : VoteRow)
    (h : db.votes.any (fun w => w.paymentId == v.paymentId) = true) :
    insertVote db v =
      Except.error "duplicate key value violates unique constraint on votes.payment_id" := by
  simp [insertVote, h]

theorem commitInv_update (ctx : CommitCtx) (voted : Bool) (db db1 : DB)
    (c : PaymentRow → Bool) (prov : Option Nat)
    (hupd : updatePaymentStatusWhere db c "completed"
      (fun p => { p with paymentProviderId := prov }) = Except.ok db1)
    (hInv : CommitInv ctx voted db) : CommitInv ctx voted db1 := by
  obtain ⟨⟨p1, hp1, hk1⟩, ⟨p2, hp2, hk2⟩, hcc, hcat, hee, hvv⟩ := hInv
  have hrest := votes_updatePaymentStatusWhere db db1 _ _ _ hupd
  refine ⟨⟨if c p1 then { { p1 with status := "completed" } with
        paymentProviderId := prov } else p1, ?_, ?_⟩,
    ⟨if c p2 then { { p2 with status := "completed" } with
        paymentProviderId := prov } else p2, ?_, ?_⟩, ?_, ?_, ?_, ?_⟩
  · rw [find?_after_update db db1 c "completed" _ hupd
        (fun q => q.id == ctx.pid) (fun a => rfl), hp1]
    rfl
  · by_cases hcp : c p1 = true
    · rw [if_pos hcp]
      exact ⟨hk1.1, hk1.2.1, hk1.2.2.1, hk1.2.2.2.1, hk1.2.2.2.2.1, rfl⟩
    · rw [if_neg hcp]
      exact hk1
  · rw [find?_after_update db db1 c "completed" _ hupd
        (fun q => q.paymentIntentId == some ctx.iid) (fun a => rfl), hp2]
    rfl
  · by_cases hcp : c p2 = true
    · rw [if_pos hcp]
      exact ⟨hk2.1, hk2.2.1, hk2.2.2.1, hk2.2.2.2.1, hk2.2.2.2.2.1, rfl⟩
    · rw [if_neg hcp]
      exact hk2
  · rw [show db1.contestants = db.contestants from hrest.2.1]
    exact hcc
  · rw [show db1.categories = db.categories from hrest.2.2.2]
    exact hcat
  · rw [show db1.events = db.events from hrest.2.2.1]
    exact hee
  · show (db1.votes.filter (fun w => w.paymentId == ctx.pid)).length = _
    rw [show db1.votes = db.votes from hrest.1]
    exact hvv

theorem commitInv_insert (ctx : CommitCtx) (db : DB)
    (hInv : CommitInv ctx false db) :
    CommitInv ctx true (runVoteCountsTrigger
      { db with votes := db.votes ++
        [{ voterId := ctx.vid, contestantId := ctx.cid, eventId := ctx.eid,
           paymentId := ctx.pid, amount := ctx.amt }] }
      { voterId := ctx.vid, contestantId := ctx.cid, eventId := ctx.eid,
        paymentId := ctx.pid, amount := ctx.amt }) := by
  obtain ⟨⟨p1, hp1, hk1⟩, ⟨p2, hp2, hk2⟩, ⟨cc, hcc, hccat, hccount⟩, hcat,
    ⟨ee, hee, heact, hes, heen, hep, hetv, hetr⟩, hvv⟩ := hInv
  have hccid : (cc.id == ctx.cid) = true := by
    have h := List.find?_some hcc
    simpa using h
  have heeid : (ee.id == ctx.eid) = true := by
    have h := List.find?_some hee
    simpa using h
  unfold runVoteCountsTrigger
  refine ⟨⟨p1, hp1, hk1⟩, ⟨p2, hp2, hk2⟩,
    ⟨{ cc with voteCount := cc.voteCount + 1 }, ?_, ?_, ?_⟩, hcat,
    ⟨{ ee with totalVotes := ee.totalVotes + 1,
               totalRevenue := ee.totalRevenue + ctx.amt }, ?_, ?_⟩, ?_⟩
  · show (updateWhere (fun c => c.id == ctx.cid)
        (fun c => { c with voteCount := c.voteCount + 1 })
        db.contestants).find? (fun x => x.id == ctx.cid) = _
    rw [find?_updateWhere db.contestants (fun c => c.id == ctx.cid)
        (fun c => { c with voteCount := c.voteCount + 1 })
        (fun x => x.id == ctx.cid) (fun a => rfl), hcc]
    simp only [Option.map_some']
    rw [if_pos hccid]
  · exact hccat
  · show cc.voteCount + 1 = ctx.c0 + (if true then 1 else 0)
    rw [hccount]
    simp
  · show (updateWhere (fun e => e.id == ctx.eid)
        (fun e => { e with totalVotes := e.totalVotes + 1,
                           totalRevenue := e.totalRevenue + ctx.amt })
        db.events).find? (fun x => x.id == ctx.eid) = _
    rw [find?_updateWhere db.events (fun e => e.id == ctx.eid)
        (fun e => { e with totalVotes := e.totalVotes + 1,
                           totalRevenue := e.totalRevenue + ctx.amt })
        (fun x => x.id == ctx.eid) (fun a => rfl), hee]
    simp only [Option.map_some']
    rw [if_pos heeid]
  · refine ⟨heact, hes, heen, hep, ?_, ?_⟩
    · show ee.totalVotes + 1 = ctx.tv0 + (if true then 1 else 0)
      rw [hetv]
      simp
    · show ee.totalRevenue + ctx.amt = ctx.tr0 + (if true then ctx.amt else 0)
      rw [hetr]
      simp
  · show ((db.votes ++ _).filter (fun w => w.paymentId == ctx.pid)).length = _
    rw [List.filter_append]
    have hnil : db.votes.filter (fun w => w.paymentId == ctx.pid) = [] := by
      have h0 : (db.votes.filter (fun w => w.paymentId == ctx.pid)).length = 0 := by
        simpa [votesForPayment] using hvv
      exact List.length_eq_zero.mp h0
    rw [hnil]
    simp

theorem commitInv_step (ctx : CommitCtx) (voted : Bool) (db : DB) (op : CommitOp)
    (hInv : CommitInv ctx voted db) (hop : TargetsCtx ctx op) :
    CommitInv ctx true (applyCommitOp db op) := by
  cases op with
  | stripeWebhook m i =>
    have hop' : m.isSome = true ∧ i = ctx.iid := hop
    obtain ⟨mp, rfl⟩ := Option.isSome_iff_exists.mp hop'.1
    obtain ⟨rfl⟩ : i = ctx.iid := hop'.2
    show CommitInv ctx true (handlePaymentSucceeded db (some mp) ctx.iid)
    obtain ⟨p2, hp2, hk2⟩ := hInv.2.1
    unfold handlePaymentSucceeded
    simp only [hp2]
    cases hupd : updatePaymentStatusWhere db (fun p => p.id == p2.id) "completed"
        (fun p => { p with paymentProviderId := some ctx.iid }) with
    | error msg =>
      exfalso
      unfold updatePaymentStatusWhere at hupd
      rw [if_pos (show paymentStatusEnum.contains "completed" = true by decide)]
        at hupd
      exact Except.noConfusion hupd
    | ok db1 =>
      simp only [hupd]
      have hInv1 := commitInv_update ctx voted db db1 _ (some ctx.iid) hupd hInv
      have hrow : ({ voterId := p2.voterId,
                      contestantId := p2.contestantId,
                      eventId := p2.eventId, paymentId := p2.id,
                      amount := p2.amount } : VoteRow) =
          { voterId := ctx.vid, contestantId := ctx.cid, eventId := ctx.eid,
            paymentId := ctx.pid, amount := ctx.amt } := by
        rw [hk2.1, hk2.2.1, hk2.2.2.1, hk2.2.2.2.1, hk2.2.2.2.2.1]
      rw [hrow]
      cases voted with
      | true =>
        have hone : (votesForPayment db1 ctx.pid).length = 1 := by
          have := hInv1.2.2.2.2.2
          simpa using this
        rw [insertVote_conflict db1 _ (votes_any_of_one db1 ctx.pid hone)]
        exact hInv1
      | false =>
        have hzero : (votesForPayment db1 ctx.pid).length = 0 := by
          have := hInv1.2.2.2.2.2
          simpa using this
        rw [insertVote_ok_of_absent db1 _ (votes_any_of_none db1 ctx.pid hzero)]
        exact commitInv_insert ctx db1 hInv1
  | paystackWebhook r v c =>
    have hop' : r = some ctx.pid ∧ v = true := hop
    obtain ⟨rfl, rfl⟩ := hop'
    show CommitInv ctx true (handleChargeSuccess db (some ctx.pid) true c)
    obtain ⟨p1, hp1, hk1⟩ := hInv.1
    unfold handleChargeSuccess
    simp only [Bool.not_true, Bool.false_eq_true, if_false, hp1]
    cases hupd : updatePaymentStatusWhere db (fun p => p.id == p1.id) "completed"
        (fun p => { p with paymentProviderId := some c }) with
    | error msg =>
      exfalso
      unfold updatePaymentStatusWhere at hupd
      rw [if_pos (show paymentStatusEnum.contains "completed" = true by decide)]
        at hupd
      exact Except.noConfusion hupd
    | ok db1 =>
      simp only [hupd]
      have hInv1 := commitInv_update ctx voted db db1 _ (some c) hupd hInv
      have hrow : ({ voterId := p1.voterId,
                      contestantId := p1.contestantId,
                      eventId := p1.eventId, paymentId := p1.id,
                      amount := p1.amount } : VoteRow) =
          { voterId := ctx.vid, contestantId := ctx.cid, eventId := ctx.eid,
            paymentId := ctx.pid, amount := ctx.amt } := by
        rw [hk1.1, hk1.2.1, hk1.2.2.1, hk1.2.2.2.1, hk1.2.2.2.2.1]
      rw [hrow]
      cases voted with
      | true =>
        have hone : (votesForPayment db1 ctx.pid).length = 1 := by
          have := hInv1.2.2.2.2.2
          simpa using this
        rw [insertVote_conflict db1 _ (votes_any_of_one db1 ctx.pid hone)]
        exact hInv1
      | false =>
        have hzero : (votesForPayment db1 ctx.pid).length = 0 := by
          have := hInv1.2.2.2.2.2
          simpa using this
        rw [insertVote_ok_of_absent db1 _ (votes_any_of_none db1 ctx.pid hzero)]
        exact commitInv_insert ctx db1 hInv1
  | votesEndpoint now voterId contestantId paymentId amount =>
    have hop' : voterId = ctx.vid ∧ contestantId = ctx.cid ∧ paymentId = ctx.pid ∧
        amount = ctx.amt ∧ ¬ now < ctx.startD ∧ ¬ ctx.endD < now := hop
    obtain ⟨rfl, rfl, rfl, rfl, hns, hne⟩ := hop'
    show CommitInv ctx true (postVote db now ctx.vid ctx.cid ctx.pid ctx.amt).2
    obtain ⟨cc, hcc, hccat, hccount⟩ := hInv.2.2.1
    have hcat := hInv.2.2.2.1
    obtain ⟨ee, hee, heact, hes, heen, hep, hetv, hetr⟩ := hInv.2.2.2.2.1
    obtain ⟨p1, hp1, hk1⟩ := hInv.1
    have heeid : ee.id = ctx.eid := by
      have := List.find?_some hee
      simpa using this
    have hres : resolveEventOfContestant db ctx.cid = some (cc, ee) := by
      simp only [resolveEventOfContestant, hcc, hccat, Option.bind_eq_bind,
        Option.some_bind, Option.pure_def, hcat, hee]
    unfold postVote
    simp only [hres]
    rw [if_neg (by rw [heact]; exact fun h => h rfl)]
    rw [if_neg (by rw [hes]; exact hns), if_neg (by rw [heen]; exact hne)]
    rw [if_neg (by rw [hep]; exact fun h => h rfl)]
    simp only [hp1]
    rw [if_neg (by rw [hk1.2.2.2.2.2]; exact fun h => h rfl)]
    rw [if_neg (by rw [hk1.2.2.1, hk1.2.1]; rintro (h | h) <;> exact h rfl)]
    cases voted with
    | true =>
      have hone : (votesForPayment db ctx.pid).length = 1 := by
        have := hInv.2.2.2.2.2
        simpa using this
      rw [if_pos (votes_any_of_one db ctx.pid hone)]
      exact hInv
    | false =>
      have hzero : (votesForPayment db ctx.pid).length = 0 := by
        have := hInv.2.2.2.2.2
        simpa using this
      rw [if_neg (by rw [votes_any_of_none db ctx.pid hzero]; simp)]
      rw [heeid]
      rw [insertVote_ok_of_absent db _ (votes_any_of_none db ctx.pid hzero)]
      exact commitInv_insert ctx db hInv

theorem commitInv_steps (ctx : CommitCtx) (db : DB) (ops : List CommitOp)
    (hall : ∀ op ∈ ops, TargetsCtx ctx op) (hInv : CommitInv ctx true db) :
    CommitInv ctx true (applyCommitOps db ops) := by
  induction ops generalizing db with
  | nil => exact hInv
  | cons op rest ih =>
    show CommitInv ctx true (applyCommitOps (applyCommitOp db op) rest)
    exact ih (applyCommitOp db op)
      (fun o ho => hall o (List.mem_cons_of_mem op ho))
      (commitInv_step ctx true db op hInv (hall op (List.mem_cons_self op rest)))

/-! ### Claim theorems: currency and commission -/

/-- C7: for every currency code and every amount representable at that
currency's minor-unit precision, `fromMinorCurrencyUnit` inverts
`toMinorCurrencyUnit`, and on these amounts the rounding performed on the
scaled value agrees with round-half-away-from-zero (the scaled value is an
integer, so no tie is ever broken). -/
theorem currency_minor_unit_round_trip (c : String) (a : ℚ)
    (h : RepresentableAt a c) :
    fromMinorCurrencyUnit (toMinorCurrencyUnit a c) c = a ∧
    toMinorCurrencyUnit a c = roundHalfAwayFromZero (scaledValue a c) := by
  unfold RepresentableAt at h
  unfold fromMinorCurrencyUnit toMinorCurrencyUnit scaledValue
  by_cases hz : isZeroDecimal c
  · simp only [hz, if_true] at h ⊢
    obtain ⟨k, hk⟩ : ∃ k : ℤ, (k : ℚ) = a := ⟨a.num, Rat.coe_int_num_of_den_eq_one h⟩
    subst hk
    rw [jsRound_intCast, roundHalfAwayFromZero_intCast]
    simp
  · simp only [hz, if_false, Bool.false_eq_true] at h ⊢
    obtain ⟨k, hk⟩ : ∃ k : ℤ, (k : ℚ) = a * 100 :=
      ⟨(a * 100).num, Rat.coe_int_num_of_den_eq_one h⟩
    rw [← hk, jsRound_intCast, roundHalfAwayFromZero_intCast]
    constructor
    · field_simp at hk ⊢
      linarith
    · rfl

/-- C7 witness: the amount 29/100 is representable for currency code `USD`
and the round-trip holds there. -/
theorem currency_minor_unit_round_trip_witness :
    RepresentableAt (29 / 100) "USD" ∧
    fromMinorCurrencyUnit (toMinorCurrencyUnit (29 / 100) "USD") "USD" = 29 / 100 := by
  have hrep : RepresentableAt (29 / 100) "USD" := by
    unfold RepresentableAt
    have : isZeroDecimal "USD" = false := by decide
    rw [this]
    norm_num
  exact ⟨hrep, (currency_minor_unit_round_trip "USD" (29 / 100) hrep).1⟩

/-- C3 counterexample: for amount 1 and commission rate 1/1000 (an amount
`≥ 0.01` and a rate in `[0,1]`), the platform fee computed by the
create-intent routes is `1/1000`, which is not `round2(1 × 1/1000) = 0`:
the code never rounds the fee to two decimal places. -/
theorem commission_split_round2_counterexample :
    (1 / 100 : ℚ) ≤ 1 ∧ (0 : ℚ) ≤ 1 / 1000 ∧ (1 / 1000 : ℚ) ≤ 1 ∧
    (commissionSplit 1 (1 / 1000)).1 ≠ round2 (1 * (1 / 1000)) := by
  refine ⟨by norm_num, by norm_num, by norm_num, ?_⟩
  unfold commissionSplit round2 roundHalfAwayFromZero
  have h0 : ⌊(1 : ℚ) * (1 / 1000) * 100 + 1 / 2⌋ = 0 := by
    rw [Int.floor_eq_iff] <;> norm_num
  rw [if_pos (by norm_num)]
  rw [h0]
  norm_num

/-- C3 amended: for every amount `a ≥ 0.01` and rate `r ∈ [0,1]`, the fee
split computed at payment creation is `platformFee = a × r` (exact product,
not rounded to two decimals), `organizerEarnings = a − platformFee`, and
`platformFee + organizerEarnings = a` exactly. -/
theorem commission_split_exact (a r : ℚ) (ha : 1 / 100 ≤ a) (hr0 : 0 ≤ r)
    (hr1 : r ≤ 1) :
    (commissionSplit a r).1 = a * r ∧
    (commissionSplit a r).2 = a - (commissionSplit a r).1 ∧
    (commissionSplit a r).1 + (commissionSplit a r).2 = a := by
  refine ⟨rfl, rfl, ?_⟩
  unfold commissionSplit
  ring

/-- C3 amended witness: the split of amount 5 at rate 1/20 is fee 1/4 and
earnings 19/4, which sum back to 5. -/
theorem commission_split_exact_witness :
    (1 / 100 : ℚ) ≤ 5 ∧ (0 : ℚ) ≤ 1 / 20 ∧ (1 / 20 : ℚ) ≤ 1 ∧
    (commissionSplit 5 (1 / 20)).1 + (commissionSplit 5 (1 / 20)).2 = 5 := by
  refine ⟨by norm_num, by norm_num, by norm_num, ?_⟩
  exact (commission_split_exact 5 (1 / 20) (by norm_num) (by norm_num) (by norm_num)).2.2

/-! ### Claim theorems: webhook routes and dispute handling -/

/-- C6: for every inbound webhook request of either provider, a missing or
invalid signature yields a 400 response with no state mutation, and a
verified request is acknowledged with 200 in every dispatch branch — for
every event payload, so in particular for unknown event types and for states
in which the vote insertion inside the success handlers fails. -/
theorem webhook_ack_discipline (db : DB) (hasSig hasSecret valid : Bool)
    (se : StripeEvent) (pe : PaystackEvent) :
    ((hasSig && hasSecret && valid) = false →
      stripeWebhookRoute db hasSig hasSecret valid se = ⟨db, 400⟩ ∧
      paystackWebhookRoute db hasSig hasSecret valid pe = ⟨db, 400⟩) ∧
    ((hasSig && hasSecret && valid) = true →
      (stripeWebhookRoute db hasSig hasSecret valid se).httpStatus = 200 ∧
      (paystackWebhookRoute db hasSig hasSecret valid pe).httpStatus = 200) := by
  cases hasSig <;> cases hasSecret <;> cases valid <;>
    simp [stripeWebhookRoute, paystackWebhookRoute]

/-- C6 witness: on the concrete state, an invalid-signature request returns
400 unchanged and a verified unknown-event request returns 200. -/
theorem webhook_ack_discipline_witness :
    stripeWebhookRoute sampleDb true true false (StripeEvent.unknownEvent "x") =
      ⟨sampleDb, 400⟩ ∧
    (paystackWebhookRoute sampleDb true true true (PaystackEvent.unknownEvent "x")).httpStatus
      = 200 :=
  ⟨((webhook_ack_discipline sampleDb true true false (StripeEvent.unknownEvent "x")
      (PaystackEvent.unknownEvent "x")).1 (by decide)).1,
   ((webhook_ack_discipline sampleDb true true true (StripeEvent.unknownEvent "x")
      (PaystackEvent.unknownEvent "x")).2 (by decide)).2⟩

/-- C9: the claim expects `charge.dispute.created` to transition a completed
payment to `disputed`, but the `payment_status` enum of `database/schema.sql`
has no `disputed` value, so the update statement issued by
`handleChargeDispute` is always rejected by the storage layer and the handler
leaves the database — payment status and votes included — completely
unchanged. -/
theorem charge_dispute_rejected_by_schema (db : DB) (intentId : Option Nat) :
    paymentStatusEnum.contains "disputed" = false ∧
    handleChargeDispute db intentId = db :=
  ⟨by decide, handleChargeDispute_noop db intentId⟩

/-! ### Claim theorems: withdrawals and commission-rate snapshot -/

/-- C10: a withdrawal request whose amount exceeds the withdrawable balance
computed at request time is rejected with that available balance in the
response and leaves the state unchanged, and any request that does change the
state satisfied `amount ≤ balance` and appended exactly one pending
withdrawal row. -/
theorem withdrawal_balance_gate (db : DB) (organizerId : Nat) (amount : ℚ)
    (method : String) (details : PaymentDetails) (newId : Nat) :
    (withdrawableBalance db organizerId < amount →
      postWithdrawal db organizerId amount method details newId =
        (WithdrawResponse.insufficientBalance (withdrawableBalance db organizerId)
          amount, db)) ∧
    ((postWithdrawal db organizerId amount method details newId).2 ≠ db →
      amount ≤ withdrawableBalance db organizerId ∧
      (postWithdrawal db organizerId amount method details newId).2.withdrawals =
        db.withdrawals ++
          [{ id := newId, organizerId := organizerId, amount := amount,
             status := "pending" }]) := by
  constructor
  · intro h
    unfold postWithdrawal
    rw [if_pos h]
  · intro h
    unfold postWithdrawal at h ⊢
    by_cases h1 : withdrawableBalance db organizerId < amount
    · rw [if_pos h1] at h
      exact absurd rfl h
    · rw [if_neg h1] at h ⊢
      refine ⟨le_of_not_lt h1, ?_⟩
      by_cases h2 : (method == "bank_transfer" &&
          !(details.hasAccountNumber && details.hasBankName &&
            details.hasAccountName)) = true
      · rw [if_pos h2] at h
        exact absurd rfl h
      · rw [if_neg h2] at h ⊢
        by_cases h3 : (method == "mobile_money" &&
            !(details.hasMobileNumber && details.hasNetwork)) = true
        · rw [if_pos h3] at h
          exact absurd rfl h
        · rw [if_neg h3] at h ⊢
          unfold insertWithdrawal at h ⊢
          by_cases h4 : (db.withdrawals.any (fun x => x.id == newId)) = true
          · rw [if_pos h4] at h
            exact absurd rfl h
          · rw [if_neg h4]

/-- C10 witness: on a state with no events and no withdrawals the balance is
0, so a request for 5 is rejected reporting 0, and a request for 0 with valid
bank details creates the pending row. -/
theorem withdrawal_balance_gate_witness :
    postWithdrawal
        { events := [], categories := [], contestants := [], payments := [],
          votes := [], withdrawals := [], settings := { commissionRate := 1 / 20 } }
        1 5 "bank_transfer"
        { hasAccountNumber := true, hasBankName := true, hasAccountName := true,
          hasMobileNumber := false, hasNetwork := false } 9 =
      (WithdrawResponse.insufficientBalance
        (withdrawableBalance
          { events := [], categories := [], contestants := [], payments := [],
            votes := [], withdrawals := [], settings := { commissionRate := 1 / 20 } }
          1) 5,
        { events := [], categories := [], contestants := [], payments := [],
          votes := [], withdrawals := [], settings := { commissionRate := 1 / 20 } }) :=
  (withdrawal_balance_gate _ 1 5 "bank_transfer" _ 9).1
    (by norm_num [withdrawableBalance, organizerTotalRevenue, withdrawnOrPending])

/-- C8 counterexample: on the concrete state the payment row froze earnings
19/4, and the withdrawable balance before any rate change is also 19/4; but
after the commission rate is changed from 1/20 to 1/2 the withdrawable
balance computed for the same historical payment becomes 5/2 — the rate is
re-read and re-applied to historical revenue, contradicting the claim that no
later rate change alters the earnings attributed to an existing payment in
the withdrawable-balance computation. -/
theorem rate_change_alters_balance_counterexample :
    organizerStoredEarnings sampleDb 1 = 19 / 4 ∧
    withdrawableBalance sampleDb 1 = 19 / 4 ∧
    withdrawableBalance (setCommissionRate sampleDb (1 / 2)) 1 = 5 / 2 ∧
    withdrawableBalance (setCommissionRate sampleDb (1 / 2)) 1 ≠
      withdrawableBalance sampleDb 1 := by
  norm_num [organizerStoredEarnings, withdrawableBalance, organizerTotalRevenue,
    withdrawnOrPending, setCommissionRate, sampleDb, commissionSplit]

/-- C8 amended: the fee split stored in the payment rows is frozen — changing
the commission rate touches no payment row and leaves the stored
organizer-earnings sums unchanged — but the withdrawable-balance computation
of the withdrawal route re-reads the current rate and applies it to total
event revenue, so a rate change does retroactively change that balance. -/
theorem rate_snapshot_in_rows_not_in_balance (db : DB) (rate : ℚ)
    (organizerId : Nat) :
    (setCommissionRate db rate).payments = db.payments ∧
    organizerStoredEarnings (setCommissionRate db rate) organizerId =
      organizerStoredEarnings db organizerId ∧
    withdrawableBalance (setCommissionRate db rate) organizerId =
      organizerTotalRevenue db organizerId * (1 - rate) -
        withdrawnOrPending db organizerId :=
  ⟨rfl, rfl, rfl⟩

/-! ### Claim theorems: idempotency hit on the vote-creation endpoint -/

/-- C5 counterexample: on the concrete state whose completed payment 1
already has a vote, the `POST /votes` call with matching parameters answers
the 400 error `Vote already exists for this payment` — an error response to
the caller, not a success returning the existing vote — while creating no
duplicate. -/
theorem vote_conflict_is_error_counterexample :
    (postVote sampleDb 50 2 1 1 5).1 =
      VoteResponse.badRequest "Vote already exists for this payment" ∧
    (postVote sampleDb 50 2 1 1 5).2 = sampleDb := by
  constructor <;>
    norm_num [postVote, resolveEventOfContestant, sampleDb, commissionSplit,
      Option.bind]

/-- C5 amended: whenever a commit attempt through `POST /votes` reaches the
existing-vote check (eligibility, payment-completed and match checks pass)
and a vote already references the payment, the endpoint rejects with the 400
error `Vote already exists for this payment`; it does create no duplicate and
re-increments no counter (the state is returned unchanged), but the
idempotency hit is reported as an error, not as a success carrying the
existing vote. -/
theorem vote_conflict_is_error_no_duplicate (db : DB) (now : ℤ)
    (voterId contestantId paymentId : Nat) (amount : ℚ)
    (c : ContestantRow) (e : EventRow) (payment : PaymentRow)
    (hres : resolveEventOfContestant db contestantId = some (c, e))
    (hact : e.status = "active")
    (hstart : ¬ now < e.startDate) (hend : ¬ e.endDate < now)
    (hamt : amount = e.votePrice)
    (hpay : db.payments.find? (fun p => p.id == paymentId) = some payment)
    (hcompleted : payment.status = "completed")
    (hcid : payment.contestantId = contestantId)
    (hvid : payment.voterId = voterId)
    (hexists : db.votes.any (fun w => w.paymentId == paymentId) = true) :
    postVote db now voterId contestantId paymentId amount =
      (VoteResponse.badRequest "Vote already exists for this payment", db) := by
  unfold postVote
  simp only [hres]
  rw [if_neg (by rw [hact]; exact fun h => h rfl)]
  rw [if_neg hstart, if_neg hend, if_neg (by rw [hamt]; exact fun h => h rfl)]
  simp only [hpay]
  rw [if_neg (by rw [hcompleted]; exact fun h => h rfl)]
  rw [if_neg (by rw [hcid, hvid]; rintro (h | h) <;> exact h rfl)]
  rw [if_pos hexists]

/-- C5 amended witness: the amended statement instantiated on the concrete
state. -/
theorem vote_conflict_is_error_no_duplicate_witness :
    postVote sampleDb 50 2 1 1 5 =
      (VoteResponse.badRequest "Vote already exists for this payment", sampleDb) :=
  vote_conflict_is_error_no_duplicate sampleDb 50 2 1 1 5
    { id := 1, categoryId := 1, voteCount := 1 }
    { id := 1, organizerId := 1, status := "active", votePrice := 5,
      startDate := 0, endDate := 100, totalVotes := 1, totalRevenue := 5 }
    { id := 1, voterId := 2, eventId := 1, contestantId := 1, amount := 5,
      platformFee := (commissionSplit 5 (1 / 20)).1,
      organizerEarnings := (commissionSplit 5 (1 / 20)).2,
      paymentMethod := "stripe", paymentProviderId := some 7,
      paymentIntentId := some 7, status := "completed" }
    (by norm_num [resolveEventOfContestant, sampleDb, Option.bind])
    rfl (by norm_num) (by norm_num) (by norm_num [sampleDb])
    (by norm_num [sampleDb]) rfl rfl rfl (by norm_num [sampleDb])

/-! ### Claim theorems: eligibility gate of the create-intent routes -/

/-- C4 counterexample: on the concrete state (voting window `[0,100]`), the
Paystack initialize route rejects a request at time −10 (voting not started)
and a request at time 200 (voting ended) with the identical reason
`Voting period has ended or not started` — the two violated preconditions are
not distinguishable, contrary to the claim; no payment row is created in
either case. -/
theorem paystack_window_reasons_counterexample :
    (paystackInitialize sampleDb (-10) 2 1 5 9 true).1 =
      IntentResponse.badRequest "Voting period has ended or not started" ∧
    (paystackInitialize sampleDb 200 2 1 5 9 true).1 =
      (paystackInitialize sampleDb (-10) 2 1 5 9 true).1 ∧
    (paystackInitialize sampleDb (-10) 2 1 5 9 true).2 = sampleDb ∧
    (paystackInitialize sampleDb 200 2 1 5 9 true).2 = sampleDb ∧
    (-10 : ℤ) < 0 ∧ (100 : ℤ) < 200 := by
  refine ⟨?_, ?_, ?_, ?_, by norm_num, by norm_num⟩ <;>
    norm_num [paystackInitialize, resolveEventOfContestant, sampleDb, Option.bind]

/-- C4 amended: each violated precondition yields its reject reason and
leaves the state unchanged (no payment row); the Stripe route distinguishes
all five reasons, while the Paystack route collapses the two voting-window
violations into the single reason `Voting period has ended or not started`. -/
theorem eligibility_gate_rejections (db : DB) (now : ℤ) (userId cid : Nat)
    (amount : ℚ) (npid : Nat) (sOk : Bool) (sIid : Nat) (pOk : Bool) :
    (resolveEventOfContestant db cid = none →
      stripeCreateIntent db now userId cid amount npid sOk sIid =
        (IntentResponse.notFound "Contestant not found", db) ∧
      paystackInitialize db now userId cid amount npid pOk =
        (IntentResponse.notFound "Contestant not found", db)) ∧
    (∀ c e, resolveEventOfContestant db cid = some (c, e) →
      (e.status ≠ "active" →
        stripeCreateIntent db now userId cid amount npid sOk sIid =
          (IntentResponse.badRequest "Event is not active", db) ∧
        paystackInitialize db now userId cid amount npid pOk =
          (IntentResponse.badRequest "Event is not active", db)) ∧
      (e.status = "active" → now < e.startDate →
        stripeCreateIntent db now userId cid amount npid sOk sIid =
          (IntentResponse.badRequest "Voting has not started yet", db) ∧
        paystackInitialize db now userId cid amount npid pOk =
          (IntentResponse.badRequest "Voting period has ended or not started", db)) ∧
      (e.status = "active" → ¬ now < e.startDate → e.endDate < now →
        stripeCreateIntent db now userId cid amount npid sOk sIid =
          (IntentResponse.badRequest "Voting has ended", db) ∧
        paystackInitialize db now userId cid amount npid pOk =
          (IntentResponse.badRequest "Voting period has ended or not started", db)) ∧
      (e.status = "active" → ¬ now < e.startDate → ¬ e.endDate < now →
        amount ≠ e.votePrice →
        stripeCreateIntent db now userId cid amount npid sOk sIid =
          (IntentResponse.badRequest "Invalid vote amount", db) ∧
        paystackInitialize db now userId cid amount npid pOk =
          (IntentResponse.badRequest "Invalid vote amount", db))) := by
  constructor
  · intro hres
    constructor
    · unfold stripeCreateIntent
      simp only [hres]
    · unfold paystackInitialize
      simp only [hres]
  · intro c e hres
    refine ⟨?_, ?_, ?_, ?_⟩
    · intro hin
      constructor
      · unfold stripeCreateIntent
        simp only [hres]
        rw [if_pos hin]
      · unfold paystackInitialize
        simp only [hres]
        rw [if_pos hin]
    · intro hact hstart
      constructor
      · unfold stripeCreateIntent
        simp only [hres]
        rw [if_neg (by rw [hact]; exact fun h => h rfl)]
        rw [if_pos hstart]
      · unfold paystackInitialize
        simp only [hres]
        rw [if_neg (by rw [hact]; exact fun h => h rfl)]
        rw [if_pos (Or.inl hstart)]
    · intro hact hstart hend
      constructor
      · unfold stripeCreateIntent
        simp only [hres]
        rw [if_neg (by rw [hact]; exact fun h => h rfl)]
        rw [if_neg hstart, if_pos hend]
      · unfold paystackInitialize
        simp only [hres]
        rw [if_neg (by rw [hact]; exact fun h => h rfl)]
        rw [if_pos (Or.inr hend)]
    · intro hact hstart hend hamt
      constructor
      · unfold stripeCreateIntent
        simp only [hres]
        rw [if_neg (by rw [hact]; exact fun h => h rfl)]
        rw [if_neg hstart, if_neg hend, if_pos hamt]
      · unfold paystackInitialize
        simp only [hres]
        rw [if_neg (by rw [hact]; exact fun h => h rfl)]
        rw [if_neg (by rintro (h | h); exacts [absurd h hstart, absurd h hend])]
        rw [if_pos hamt]

/-- C4 amended witness: on the concrete state at time 200 (after the voting
window) both routes reject without creating a payment, Stripe with
`Voting has ended` and Paystack with the collapsed window reason. -/
theorem eligibility_gate_rejections_witness :
    stripeCreateIntent sampleDb 200 2 1 5 9 true 7 =
      (IntentResponse.badRequest "Voting has ended", sampleDb) ∧
    paystackInitialize sampleDb 200 2 1 5 9 true =
      (IntentResponse.badRequest "Voting period has ended or not started", sampleDb) :=
  ((eligibility_gate_rejections sampleDb 200 2 1 5 9 true 7 true).2
    { id := 1, categoryId := 1, voteCount := 1 }
    { id := 1, organizerId := 1, status := "active", votePrice := 5,
      startDate := 0, endDate := 100, totalVotes := 1, totalRevenue := 5 }
    (by norm_num [resolveEventOfContestant, sampleDb, Option.bind])).2.2.1
    rfl (by norm_num) (by norm_num)

/-! ### Claim theorems: payment status monotonicity -/

/-- C2 counterexample: on the concrete state whose payment 1 is `failed`, a
stale Stripe `payment_intent.succeeded` retry sets the status to `completed`:
the success handler updates without comparing the current status, so the
claimed failed-to-completed impossibility does not hold. -/
theorem stale_retry_resurrects_failed_counterexample :
    paymentStatusOf failedDb 1 = some "failed" ∧
    paymentStatusOf (applyPayOp failedDb (PayOp.stripeSucceeded (some 1) 7)) 1 =
      some "completed" := by
  constructor
  · decide
  · decide

/-- C2 amended: under every sequence of status-writing operations no payment
ever returns to `pending` (in particular completed-to-pending never happens,
and the verify and cancel paths do fetch-and-compare before writing), but the
webhook success handlers write `completed` unconditionally, so
`markCompleted` arriving after `markFailed` does resurrect the payment:
from the concrete pending state, a failed webhook followed by a stale
succeeded webhook ends in `completed`. -/
theorem status_monotonicity_amended :
    (∀ (db : DB) (ops : List PayOp) (pid : Nat),
      paymentStatusOf db pid ≠ some "pending" →
      paymentStatusOf (applyPayOps db ops) pid ≠ some "pending") ∧
    (paymentStatusOf (applyPayOps pendingDb [PayOp.stripeFailed (some 1) 7]) 1 =
      some "failed" ∧
     paymentStatusOf (applyPayOps pendingDb
        [PayOp.stripeFailed (some 1) 7, PayOp.stripeSucceeded (some 1) 7]) 1 =
      some "completed") := by
  refine ⟨paymentStatusOf_applyPayOps_ne_pending, ?_, ?_⟩
  · decide
  · decide

/-- C2 amended witness: the universally quantified part instantiated on the
concrete failed state and a stale-retry sequence. -/
theorem status_monotonicity_amended_witness :
    paymentStatusOf (applyPayOps failedDb
      [PayOp.stripeSucceeded (some 1) 7, PayOp.cancelOp 1 2]) 1 ≠ some "pending" :=
  status_monotonicity_amended.1 failedDb
    [PayOp.stripeSucceeded (some 1) 7, PayOp.cancelOp 1 2] 1 (by decide)

/-! ### Claim theorems: exactly-one vote per completed payment -/

/-- C1: starting from any state whose target payment is `completed` with no
vote yet, applying any non-empty sequence of vote-commit operations addressed
to it — Stripe succeeded webhooks, Paystack charge-success webhooks and
`POST /votes` calls, in any order — leaves exactly one vote referencing the
payment, the contestant's `vote_count` incremented by exactly 1, and the
event's `total_votes`/`total_revenue` incremented exactly once; moreover any
further vote insert for this payment is refused by the storage-layer
uniqueness constraint itself (`insertVote` returns a unique-violation error),
not merely by an application-level check. -/
theorem exactly_one_vote_per_completed_payment (ctx : CommitCtx) (db : DB)
    (ops : List CommitOp) (hne : ops ≠ [])
    (hall : ∀ op ∈ ops, TargetsCtx ctx op)
    (hInv : CommitInv ctx false db) :
    (votesForPayment (applyCommitOps db ops) ctx.pid).length = 1 ∧
    contestantVoteCountOf (applyCommitOps db ops) ctx.cid = some (ctx.c0 + 1) ∧
    eventTotalVotesOf (applyCommitOps db ops) ctx.eid = some (ctx.tv0 + 1) ∧
    eventTotalRevenueOf (applyCommitOps db ops) ctx.eid =
      some (ctx.tr0 + ctx.amt) ∧
    (∀ v : VoteRow, v.paymentId = ctx.pid →
      ∃ msg, insertVote (applyCommitOps db ops) v = Except.error msg) := by
  obtain ⟨op, rest, rfl⟩ : ∃ o r, ops = o :: r := by
    cases ops with
    | nil => exact absurd rfl hne
    | cons o r => exact ⟨o, r, rfl⟩
  have h1 : CommitInv ctx true (applyCommitOp db op) :=
    commitInv_step ctx false db op hInv (hall op (List.mem_cons_self op rest))
  have hfin : CommitInv ctx true (applyCommitOps db (op :: rest)) :=
    commitInv_steps ctx (applyCommitOp db op) rest
      (fun o ho => hall o (List.mem_cons_of_mem op ho)) h1
  obtain ⟨-, -, ⟨cc, hcc, -, hccount⟩, -, ⟨ee, hee, -, -, -, -, hetv, hetr⟩, hvv⟩ :=
    hfin
  have hone : (votesForPayment (applyCommitOps db (op :: rest)) ctx.pid).length = 1 := by
    simpa using hvv
  refine ⟨hone, ?_, ?_, ?_, ?_⟩
  · unfold contestantVoteCountOf
    rw [hcc]
    simp only [Option.map_some']
    rw [hccount]
    simp
  · unfold eventTotalVotesOf
    rw [hee]
    simp only [Option.map_some']
    rw [hetv]
    simp
  · unfold eventTotalRevenueOf
    rw [hee]
    simp only [Option.map_some']
    rw [hetr]
    simp
  · intro v hv
    refine ⟨"duplicate key value violates unique constraint on votes.payment_id", ?_⟩
    apply insertVote_conflict
    rw [hv]
    exact votes_any_of_one _ ctx.pid hone

/-- C1 witness: on the concrete fresh state, three commit attempts — a Stripe
succeeded webhook, a duplicate Paystack charge-success delivery and a
client-initiated `POST /votes` — yield exactly one vote and each counter
incremented exactly once. -/
theorem exactly_one_vote_per_completed_payment_witness :
    (votesForPayment (applyCommitOps freshCommitDb
        [CommitOp.stripeWebhook (some 1) 7,
         CommitOp.paystackWebhook (some 1) true 99,
         CommitOp.votesEndpoint 50 2 1 1 5]) 1).length = 1 ∧
    contestantVoteCountOf (applyCommitOps freshCommitDb
        [CommitOp.stripeWebhook (some 1) 7,
         CommitOp.paystackWebhook (some 1) true 99,
         CommitOp.votesEndpoint 50 2 1 1 5]) 1 = some (0 + 1) ∧
    eventTotalVotesOf (applyCommitOps freshCommitDb
        [CommitOp.stripeWebhook (some 1) 7,
         CommitOp.paystackWebhook (some 1) true 99,
         CommitOp.votesEndpoint 50 2 1 1 5]) 1 = some (0 + 1) ∧
    eventTotalRevenueOf (applyCommitOps freshCommitDb
        [CommitOp.stripeWebhook (some 1) 7,
         CommitOp.paystackWebhook (some 1) true 99,
         CommitOp.votesEndpoint 50 2 1 1 5]) 1 = some (0 + 5) ∧
    (∀ v : VoteRow, v.paymentId = 1 →
      ∃ msg, insertVote (applyCommitOps freshCommitDb
        [CommitOp.stripeWebhook (some 1) 7,
         CommitOp.paystackWebhook (some 1) true 99,
         CommitOp.votesEndpoint 50 2 1 1 5]) v = Except.error msg) :=
  exactly_one_vote_per_completed_payment
    ⟨1, 2, 1, 1, 5, 7, 1, 0, 100, 0, 0, 0⟩ freshCommitDb
    [CommitOp.stripeWebhook (some 1) 7,
     CommitOp.paystackWebhook (some 1) true 99,
     CommitOp.votesEndpoint 50 2 1 1 5]
    (by simp)
    (by
      intro op hop
      rcases List.mem_cons.mp hop with rfl | hop
      · exact ⟨rfl, rfl⟩
      rcases List.mem_cons.mp hop with rfl | hop
      · exact ⟨rfl, rfl⟩
      rcases List.mem_cons.mp hop with rfl | hop
      · exact ⟨rfl, rfl, rfl, rfl, by decide, by decide⟩
      · exact absurd hop (List.not_mem_nil op))
    (by
      refine ⟨⟨_, rfl, rfl, rfl, rfl, rfl, rfl, rfl⟩,
        ⟨_, rfl, rfl, rfl, rfl, rfl, rfl, rfl⟩,
        ⟨_, rfl, rfl, by simp⟩, rfl,
        ⟨_, rfl, rfl, rfl, rfl, rfl, by simp, by simp⟩,
        by simp [votesForPayment, freshCommitDb]⟩)

end FullProject
